import Mathlib

/-!
Verification development for the Email-Productivity-Agent repository.

The repository is a Streamlit inbox assistant whose "LLM" is a deterministic
pattern matcher (`src/utils/llm_services.py`).  This file gives a shallow
embedding of the pattern-matching core and the surrounding processing
pipeline (`src/utils/email_processor.py`, `src/utils/prompt_manager.py`,
`src/utils/data_loader.py`, `src/pages/_Email_Agent.py`) and proves or
refutes the frozen claims about it.

Text is modelled as `List Char`.  Python's `str.lower` / `str.strip` /
`str.title` are modelled with their ASCII semantics (the repository's data
and lexicons are ASCII).  Python's `re` module is modelled by a small
backtracking engine for the exact pattern shapes used by the source:
literals (case-insensitive), single-character classes and greedy
`*` / `+` over character classes, sequencing and prioritized alternation.
The engine returns the list of possible match ends in backtracking
priority order, which reproduces Python's leftmost, greedy-with-backtracking
match selection for these patterns.
-/

set_option maxRecDepth 40000

namespace EmailAgent

abbrev Str := List Char

/-- Python `str.lower()` (ASCII). -/
def lowerL (s : Str) : Str := s.map Char.toLower

/-- Python's `\s` class (ASCII whitespace as matched by `re`). -/
def isSpacePy (c : Char) : Bool :=
  c == ' ' || c == '\t' || c == '\n' || c == '\x0d' || c == '\x0b' || c == '\x0c'

/-- Python `str.strip()` (ASCII whitespace). -/
def stripL (s : Str) : Str :=
  ((s.dropWhile isSpacePy).reverse.dropWhile isSpacePy).reverse

/-- Python `needle in haystack` substring test. -/
def containsSub (needle hay : Str) : Bool := decide (needle <:+: hay)

/-- Python `any(w in text for w in ws)`. -/
def anyWord (ws : List Str) (text : Str) : Bool := ws.any (fun w => containsSub w text)

/-- Python `str.title()` (ASCII): letters following a non-letter are
uppercased, other letters lowercased. -/
def titleAux : Bool → Str → Str
  | _, [] => []
  | prevAlpha, c :: cs =>
    (if c.isAlpha then (if prevAlpha then c.toLower else c.toUpper) else c)
      :: titleAux c.isAlpha cs

def titleL (s : Str) : Str := titleAux false s

/-- Sentence terminators `[.!?]` used by the extraction regexes. -/
def isTerm (c : Char) : Bool := c == '.' || c == '!' || c == '?'

def isNotTerm (c : Char) : Bool := !(isTerm c)

/-- `[^\n.!?]` of the bullet regex. -/
def isNotNlTerm (c : Char) : Bool := !(c == '\n' || isTerm c)

/-- Python `\w` (ASCII). -/
def isWordPy (c : Char) : Bool := c.isAlphanum || c == '_'

/-- The bullet char class `[-â€¢*]` of `_extract_actions` pattern 3.  The
source file contains the bytes `2d c3a2 e282ac c2a2 2a`, i.e. the chars
`-`, U+00E2, U+20AC, U+00A2, `*` (a mojibake of a bullet point, kept
faithfully). -/
def isBullet (c : Char) : Bool :=
  c == '-' || c == '*' || c == Char.ofNat 0xE2 || c == Char.ofNat 0x20AC ||
    c == Char.ofNat 0xA2

/-! ### A small regex engine for the source's patterns -/

/-- Regular expressions as used by the source: case-insensitive literals,
single-char classes, greedy `+` / `*` over classes, sequencing and
prioritized alternation. -/
inductive RE where
  | lit (kw : Str)
  | one (p : Char → Bool)
  | many1 (p : Char → Bool)
  | many0 (p : Char → Bool)
  | seq (a b : RE)
  | alt (a b : RE)

/-- Case-insensitive literal match at the start of `cs`; returns the rest. -/
def litMatchCI : Str → Str → Option Str
  | [], cs => some cs
  | _ :: _, [] => none
  | k :: ks, c :: cs => if k.toLower = c.toLower then litMatchCI ks cs else none

/-- All ways a regex can match a prefix of `cs`, as the list of remaining
suffixes in backtracking priority order (greedy first, left alternative
first).  This reproduces Python's backtracking order for these operators. -/
def reMatches : RE → Str → List Str
  | .lit kw, cs => match litMatchCI kw cs with
      | some r => [r]
      | none => []
  | .one p, cs => match cs with
      | [] => []
      | c :: cs' => if p c then [cs'] else []
  | .many1 p, cs =>
      let n := (cs.takeWhile p).length
      (List.range n).map (fun i => cs.drop (n - i))
  | .many0 p, cs =>
      let n := (cs.takeWhile p).length
      (List.range (n + 1)).map (fun i => cs.drop (n - i))
  | .seq a b, cs => (reMatches a cs).flatMap (reMatches b)
  | .alt a b, cs => reMatches a cs ++ reMatches b cs

/-- First `some` produced by `f` along a list (backtracking search). -/
def firstSome : List α → (α → Option β) → Option β
  | [], _ => none
  | a :: rest, f => match f a with
      | some b => some b
      | none => firstSome rest f

/-- Match `pre` then a trailing capture group `g` at the start of `cs`.
Returns `(captured text of g, rest after the whole match)`.  All grouped
patterns in the source have the shape `PRE(G)` with the group last. -/
def matchAtG (pre g : RE) (cs : Str) : Option (Str × Str) :=
  firstSome (reMatches pre cs) (fun s1 =>
    (reMatches g s1).head?.map (fun s2 =>
      (s1.take (s1.length - s2.length), s2)))

/-- Match a groupless pattern at the start of `cs`; returns
`(whole match, rest)`. -/
def matchAtW (r : RE) (cs : Str) : Option (Str × Str) :=
  (reMatches r cs).head?.map (fun s => (cs.take (cs.length - s.length), s))

/-- `re.findall` for a single-group pattern `PRE(G)`: scan left to right,
non-overlapping, collecting the captured groups.  Fuel `cs.length + 1`
suffices because every pattern used consumes at least one character. -/
def findallAux (pre g : RE) : Nat → Str → List Str
  | 0, _ => []
  | n + 1, cs => match matchAtG pre g cs with
      | some (grp, rest) => grp :: findallAux pre g n rest
      | none => match cs with
          | [] => []
          | _ :: cs' => findallAux pre g n cs'

def findallG (pre g : RE) (cs : Str) : List Str :=
  findallAux pre g (cs.length + 1) cs

/-- `re.search` for a single-group pattern: first match position wins;
returns the captured group. -/
def reSearchAuxG (pre g : RE) : Nat → Str → Option Str
  | 0, _ => none
  | n + 1, cs => match matchAtG pre g cs with
      | some (grp, _) => some grp
      | none => match cs with
          | [] => none
          | _ :: cs' => reSearchAuxG pre g n cs'

def reSearchG (pre g : RE) (cs : Str) : Option Str :=
  reSearchAuxG pre g (cs.length + 1) cs

/-- `re.search` for a groupless pattern: returns the whole match
(`match.group(0)`). -/
def reSearchAuxW (r : RE) : Nat → Str → Option Str
  | 0, _ => none
  | n + 1, cs => match matchAtW r cs with
      | some (whole, _) => some whole
      | none => match cs with
          | [] => none
          | _ :: cs' => reSearchAuxW r n cs'

def reSearchW (r : RE) (cs : Str) : Option Str :=
  reSearchAuxW r (cs.length + 1) cs

/-! ### `FreeLLMService` (`src/utils/llm_services.py`) -/

/-- A Task record as produced by `_extract_actions`. -/
structure Task where
  task : Str
  priority : Str
  deadline : Str
deriving DecidableEq, Repr

namespace FreeLLMService

/-- Keyword lexicons of `_categorize_email`. -/
def urgent_words : List Str :=
  ["urgent".data, "asap".data, "immediately".data, "deadline".data,
   "important".data, "critical".data]

def action_words : List Str :=
  ["please".data, "need".data, "request".data, "action required".data,
   "todo".data, "task".data, "required".data, "must".data]

def newsletter_words : List Str :=
  ["newsletter".data, "digest".data, "weekly update".data,
   "monthly report".data, "subscription".data]

def spam_words : List Str :=
  ["promotion".data, "special offer".data, "discount".data, "buy now".data,
   "limited time".data, "click here".data]

def important_sender_marks : List Str :=
  ["@company.com".data, "@corp.com".data, "manager".data, "hr@".data]

def newsletter_sender_marks : List Str :=
  ["newsletter@".data, "digest@".data, "updates@".data]

/-- `FreeLLMService._categorize_email`: first-match-wins keyword
classification over `subject + ' ' + body` (lowercased) and the sender. -/
def categorize_email (sender subject body : Str) : Str :=
  let text := lowerL (subject ++ ' ' :: body)
  let sndr := lowerL sender
  if anyWord urgent_words text then "Important".data
  else if anyWord action_words text then "To-Do".data
  else if anyWord newsletter_words text then "Newsletter".data
  else if anyWord spam_words text then "Spam".data
  else if anyWord important_sender_marks sndr then "Important".data
  else if anyWord newsletter_sender_marks sndr then "Newsletter".data
  else "Important".data

/-- `FreeLLMService._clean_task_text`. -/
def clean_task_text (text : Str) : Str :=
  let t := stripL text
  match t with
  | [] => []
  | c :: cs => if c.isLower then c.toUpper :: cs else c :: cs

/-- `FreeLLMService._determine_priority`. -/
def determine_priority (text : Str) : Str :=
  let tl := lowerL text
  if anyWord ["urgent".data, "asap".data, "immediately".data, "critical".data] tl
  then "high".data
  else if anyWord ["when possible".data, "at your convenience".data,
                   "no rush".data] tl
  then "low".data
  else "medium".data

/-! Deadline patterns of `_extract_deadline`, tried in order with
`re.search(..., re.IGNORECASE)`.  The first three have a capture group
(`match.group(1)` is returned), the rest return the whole match; the
result is passed through `str.title()`. -/

/-- `\w+\s+\d{1,2}` — the capture group of the `by/due/deadline` patterns.
`{1,2}` is greedy: two digits preferred over one. -/
def dlGroupRE : RE :=
  .seq (.many1 isWordPy) (.seq (.many1 isSpacePy)
    (.alt (.seq (.one Char.isDigit) (.one Char.isDigit)) (.one Char.isDigit)))

def byPreRE : RE := .seq (.lit "by".data) (.many1 isSpacePy)
def duePreRE : RE := .seq (.lit "due".data) (.many1 isSpacePy)
def deadlinePreRE : RE := .seq (.lit "deadline".data) (.many1 isSpacePy)
def tomorrowRE : RE := .lit "tomorrow".data
def nextRE : RE := .seq (.lit "next".data) (.seq (.many1 isSpacePy) (.many1 isWordPy))
def thisRE : RE := .seq (.lit "this".data) (.seq (.many1 isSpacePy) (.many1 isWordPy))
def byEodRE : RE := .seq (.lit "by".data) (.seq (.many1 isSpacePy) (.lit "eod".data))
def byEndOfDayRE : RE :=
  .seq (.lit "by".data) (.seq (.many1 isSpacePy)
    (.seq (.lit "end".data) (.seq (.many1 isSpacePy)
      (.seq (.lit "of".data) (.seq (.many1 isSpacePy) (.lit "day".data))))))

/-- `FreeLLMService._extract_deadline`. -/
def extract_deadline (text : Str) : Str :=
  match reSearchG byPreRE dlGroupRE text with
  | some g => titleL g
  | none =>
  match reSearchG duePreRE dlGroupRE text with
  | some g => titleL g
  | none =>
  match reSearchG deadlinePreRE dlGroupRE text with
  | some g => titleL g
  | none =>
  match reSearchW tomorrowRE text with
  | some w => titleL w
  | none =>
  match reSearchW nextRE text with
  | some w => titleL w
  | none =>
  match reSearchW thisRE text with
  | some w => titleL w
  | none =>
  match reSearchW byEodRE text with
  | some w => titleL w
  | none =>
  match reSearchW byEndOfDayRE text with
  | some w => titleL w
  | none => []

/-! The three extraction sweeps of `_extract_actions`. -/

/-- `please\s+` — prefix of pattern 1 (`re.IGNORECASE`). -/
def pleasePreRE : RE := .seq (.lit "please".data) (.many1 isSpacePy)

/-- `([^.!?]+[.!?])` — the clause capture group of patterns 1 and 2. -/
def clauseGroupRE : RE := .seq (.many1 isNotTerm) (.one isTerm)

/-- `(?:need to|should|must)\s+` — prefix of pattern 2 (`re.IGNORECASE`). -/
def needPreRE : RE :=
  .seq (.alt (.lit "need to".data) (.alt (.lit "should".data) (.lit "must".data)))
    (.many1 isSpacePy)

/-- `[-â€¢*]\s*` — prefix of pattern 3 (no IGNORECASE flag). -/
def bulletPreRE : RE := .seq (.one isBullet) (.many0 isSpacePy)

/-- `([^\n.!?]+[.!?])` — the capture group of pattern 3. -/
def bulletGroupRE : RE := .seq (.many1 isNotNlTerm) (.one isTerm)

/-- Sweep (a): tasks from `please` clauses. -/
def pleaseTasks (text : Str) : List Task :=
  (findallG pleasePreRE clauseGroupRE text).map (fun m =>
    ⟨clean_task_text m, determine_priority text, extract_deadline text⟩)

/-- Sweep (b): tasks from `need to` / `should` / `must` clauses. -/
def needTasks (text : Str) : List Task :=
  (findallG needPreRE clauseGroupRE text).map (fun m =>
    ⟨clean_task_text m, determine_priority text, extract_deadline text⟩)

/-- Sweep (c): tasks from bulleted lines (fixed medium priority, empty
deadline). -/
def bulletTasks (text : Str) : List Task :=
  (findallG bulletPreRE bulletGroupRE text).map (fun m =>
    ⟨clean_task_text m, "medium".data, []⟩)

/-- The fallback task emitted when no sweep matches. -/
def fallbackTask : Task :=
  ⟨"Review this email for important information".data, "medium".data, []⟩

/-- `FreeLLMService._extract_actions`, up to the trailing
`json.dumps({"tasks": tasks[:3]})`: the produced task list.  (The JSON
rendering is modelled separately where the response string matters.) -/
def extract_actions (text : Str) : List Task :=
  let tasks := pleaseTasks text ++ needTasks text ++ bulletTasks text
  let tasks := if tasks.isEmpty then [fallbackTask] else tasks
  tasks.take 3

/-- `FreeLLMService._summarize_email`. -/
def summarize_email (subject body : Str) : Str :=
  let bl := lowerL body
  let phrases :=
    (if anyWord ["meeting".data, "call".data, "discuss".data, "schedule".data] bl
     then ["scheduling or discussion".data] else []) ++
    (if anyWord ["report".data, "document".data, "review".data, "submit".data] bl
     then ["document review or submission".data] else []) ++
    (if anyWord ["project".data, "task".data, "assignment".data, "work".data] bl
     then ["project work or tasks".data] else []) ++
    (if anyWord ["question".data, "query".data, "advice".data, "help".data] bl
     then ["questions or advice needed".data] else [])
  let head :=
    if !phrases.isEmpty then
      "This email about \x27".data ++ subject ++ "\x27 involves ".data ++
        (List.intercalate ", ".data phrases) ++ ". ".data
    else
      "This email \x27".data ++ subject ++ "\x27 requires your attention. ".data
  if anyWord ["urgent".data, "asap".data, "immediately".data] bl then
    head ++ "It appears to be time-sensitive and should be addressed promptly.".data
  else
    head ++ "Please review it when you have time.".data

/-- `FreeLLMService._draft_reply` (subject is extracted but unused in the
template choice, as in the source). -/
def draft_reply (_subject body : Str) : Str :=
  let bl := lowerL body
  if anyWord ["meeting".data, "schedule".data, "call".data] bl then
    "Thank you for reaching out about scheduling. \n\nI\x27d be happy to connect. Please let me know what times work best for you next week.\n\nLooking forward to our discussion.".data
  else if anyWord ["question".data, "help".data, "advice".data] bl then
    "Thank you for your question.\n\nI\x27ll look into this and get back to you with more information shortly.\n\nBest regards".data
  else if anyWord ["urgent".data, "asap".data, "immediately".data] bl then
    "Thank you for your urgent message.\n\nI\x27ve received this and will prioritize reviewing it. I\x27ll follow up with you soon.\n\nBest regards".data
  else
    "Thank you for your email.\n\nI have received your message and will review it shortly. I\x27ll get back to you with a proper response.\n\nBest regards".data

/-! `_extract_email_content`: pulls sender / subject / body out of the
composed prompt with three `re.search` calls.  The `full_text` field of the
source's dict is not consumed by any matcher branch and is omitted. -/

structure Content where
  sender : Str
  subject : Str
  body : Str
deriving DecidableEq, Repr

/-- `FROM:\s*` (IGNORECASE). -/
def fromPreRE : RE := .seq (.lit "from:".data) (.many0 isSpacePy)

/-- `SUBJECT:\s*` (IGNORECASE). -/
def subjectPreRE : RE := .seq (.lit "subject:".data) (.many0 isSpacePy)

/-- `BODY:\s*` (IGNORECASE). -/
def bodyPreRE : RE := .seq (.lit "body:".data) (.many0 isSpacePy)

/-- `([^\n]+)` — line capture group of the FROM/SUBJECT patterns. -/
def lineGroupRE : RE := .many1 (fun c => !(c == '\n'))

/-- `(.+)` with `re.DOTALL` — body capture group. -/
def restGroupRE : RE := .many1 (fun _ => true)

/-- `FreeLLMService._extract_email_content`. -/
def extract_email_content (prompt : Str) : Content :=
  { sender := match reSearchG fromPreRE lineGroupRE prompt with
      | some g => stripL g
      | none => []
    subject := match reSearchG subjectPreRE lineGroupRE prompt with
      | some g => stripL g
      | none => []
    body := match reSearchG bodyPreRE restGroupRE prompt with
      | some g => stripL g
      | none => prompt }

/-- The responses `generate_response` can produce.  The action-extraction
branch returns `json.dumps({"tasks": tasks[:3]})`; it is carried here as the
task list itself (`renderTasksJson` below reproduces the string when the
response is consumed as text). -/
inductive LLMResponse where
  | text (s : Str)
  | tasksJson (tasks : List Task)
deriving DecidableEq, Repr

/-- `json.dumps` escaping of one character (default `ensure_ascii=True`). -/
def jsonEscapeChar (c : Char) : Str :=
  if c = '"' then ['\\', '"']
  else if c = '\\' then ['\\', '\\']
  else if c = '\n' then ['\\', 'n']
  else if c = '\t' then ['\\', 't']
  else if c = '\x0d' then ['\\', 'r']
  else
    let n := c.toNat
    let hex4 (m : Nat) : Str :=
      let ds := (Nat.toDigits 16 m)
      List.replicate (4 - ds.length) '0' ++ ds
    if n < 0x20 then '\\' :: 'u' :: hex4 n
    else if n < 0x7f then [c]
    else if n < 0x10000 then '\\' :: 'u' :: hex4 n
    else
      let m := n - 0x10000
      ('\\' :: 'u' :: hex4 (0xd800 + m / 0x400)) ++
        ('\\' :: 'u' :: hex4 (0xdc00 + m % 0x400))

def jsonString (s : Str) : Str := '"' :: s.flatMap jsonEscapeChar ++ ['"']

/-- The string `json.dumps({"tasks": [...]})` produced by
`_extract_actions`. -/
def renderTasksJson (ts : List Task) : Str :=
  let obj (t : Task) : Str :=
    '\x7b' :: "\"task\": ".data ++ jsonString t.task ++ ", \"priority\": ".data ++
      jsonString t.priority ++ ", \"deadline\": ".data ++ jsonString t.deadline ++
      ['\x7d']
  '\x7b' :: "\"tasks\": [".data ++ List.intercalate ", ".data (ts.map obj) ++
    [']', '\x7d']

/-- View an `LLMResponse` as the string `generate_response` returns. -/
def respToStr : LLMResponse → Str
  | .text s => s
  | .tasksJson ts => renderTasksJson ts

/-- `FreeLLMService._smart_pattern_matcher`: keyword dispatch over the
lowercased prompt, applied to the content extracted from the prompt. -/
def smart_pattern_matcher (prompt : Str) : LLMResponse :=
  let pl := lowerL prompt
  let c := extract_email_content prompt
  if containsSub "categorize".data pl then
    .text (categorize_email c.sender c.subject c.body)
  else if containsSub "extract".data pl && containsSub "action".data pl then
    .tasksJson (extract_actions c.body)
  else if containsSub "summarize".data pl then
    .text (summarize_email c.subject c.body)
  else if containsSub "reply".data pl || containsSub "draft".data pl then
    .text (draft_reply c.subject c.body)
  else
    .text "I\x27ve processed your email request successfully.".data

end FreeLLMService

/-! ### Python-level failures

The pipeline can raise: `KeyError` on a missing dict key, `AttributeError`
on `self._extract_actions` / `self._summarize_email` (methods that do not
exist on `EmailProcessor` — the class defines `extract_actions` and
`summarize_email` without the underscore), and `IndexError` on
`match.group(1)` for the groupless deadline patterns in
`_extract_actions_from_text`. -/

inductive PyErr where
  | keyError
  | attrError
  | indexError
deriving DecidableEq, Repr

instance exceptDecEq {ε α : Type} [DecidableEq ε] [DecidableEq α] :
    DecidableEq (Except ε α) := fun x y =>
  match x, y with
  | .ok a, .ok b =>
    if h : a = b then .isTrue (by rw [h])
    else .isFalse (fun hh => by cases hh; exact h rfl)
  | .error a, .error b =>
    if h : a = b then .isTrue (by rw [h])
    else .isFalse (fun hh => by cases hh; exact h rfl)
  | .ok _, .error _ => .isFalse (fun hh => by cases hh)
  | .error _, .ok _ => .isFalse (fun hh => by cases hh)

/-- `dict[key]`: raises `KeyError` when the key is absent. -/
def getKey : Option α → Except PyErr α
  | some v => .ok v
  | none => .error .keyError

/-- An email record (`Dict[str, Any]` in the source); `none` models an
absent key (or, for `category`, the fixture's explicit `None`). -/
structure EmailRec where
  id : Int := 0
  sender : Option Str := none
  subject : Option Str := none
  body : Option Str := none
  timestamp : Str := []
  read : Bool := false
  category : Option Str := none
  actions : Option (List Task) := none
  summary : Option Str := none
deriving DecidableEq, Repr

/-! ### `PromptManager` (`src/utils/prompt_manager.py`)

The store persists a string-to-string mapping as JSON in
`data/prompts.json` and mirrors it in `st.session_state.prompts`.  The
JSON serialisation is elided: `json.load` inverts `json.dump` on string
dicts, so the file is modelled as holding the parsed mapping itself
(`none` = file missing or unreadable). -/

namespace PromptManager

abbrev PromptSet := List (Str × Str)

structure StoreState where
  file : Option PromptSet
  session : Option PromptSet
deriving DecidableEq, Repr

/-- `PromptManager.save_prompts`: overwrite the whole persisted set and the
session cache. -/
def save_prompts (prompts : PromptSet) (_s : StoreState) : StoreState :=
  { file := some prompts, session := some prompts }

/-- `PromptManager.load_prompts`: read the persisted set into the session
cache; on failure report and return the empty mapping. -/
def load_prompts (s : StoreState) : PromptSet × StoreState :=
  match s.file with
  | some prompts => (prompts, { s with session := some prompts })
  | none => ([], s)

/-- The default prompt texts written by `_ensure_prompts_file`. -/
def defaultCategorizationPrompt : Str :=
  "Categorize this email into one of these categories: Important, Newsletter, Spam, To-Do. To-Do emails must include a direct request requiring user action. Respond with only the category name.".data

def defaultActionExtractionPrompt : Str :=
  "Extract actionable tasks from this email. Look for requests, deadlines, and required actions. Respond in JSON format with tasks array containing task, deadline, and priority.".data

def defaultSummarizationPrompt : Str :=
  "Provide a concise 2-3 sentence summary of this email focusing on the main purpose and key points. Highlight any required actions or decisions.".data

def defaultAutoReplyPrompt : Str :=
  "Draft a polite and professional email reply. Keep it brief (3-4 sentences max), address the main points, and maintain a helpful tone. Do not make promises you can\x27t keep.".data

def defaultPrompts : PromptSet :=
  [("categorization".data, defaultCategorizationPrompt),
   ("action_extraction".data, defaultActionExtractionPrompt),
   ("summarization".data, defaultSummarizationPrompt),
   ("auto_reply".data, defaultAutoReplyPrompt)]

end PromptManager

/-! ### `EmailProcessor` (`src/utils/email_processor.py`) -/

namespace EmailProcessor

open FreeLLMService

/-- The `EMAIL DETAILS` context block of `EmailProcessor._categorize_email`
(the f-string's literal indentation preserved). -/
def emailDetailsCtx (sender subject body : Str) : Str :=
  "\n        EMAIL DETAILS:\n        From: ".data ++ sender ++
    "\n        Subject: ".data ++ subject ++
    "\n        Body: ".data ++ body ++ "\n        ".data

/-- `EmailProcessor._clean_category_response`. -/
def clean_category_response (response : Str) : Str :=
  let rl := lowerL response
  if containsSub "important".data rl then "Important".data
  else if containsSub "newsletter".data rl then "Newsletter".data
  else if containsSub "spam".data rl then "Spam".data
  else if containsSub "to-do".data rl then "To-Do".data
  else if anyWord ["urgent".data, "important".data, "critical".data] rl then
    "Important".data
  else if anyWord ["newsletter".data, "digest".data, "update".data] rl then
    "Newsletter".data
  else if anyWord ["task".data, "action".data, "todo".data, "to-do".data,
                   "please".data] rl then
    "To-Do".data
  else "Important".data

/-- `EmailProcessor._categorize_email` on the raw email fields: compose the
prompt, run `generate_response`, clean the response. -/
def categorize_email (catPrompt sender subject body : Str) : Str :=
  let full := catPrompt ++ "\n\n".data ++ emailDetailsCtx sender subject body
  clean_category_response (respToStr (smart_pattern_matcher full))

/-! `_extract_actions_from_text`: the plain-text fallback of
`_parse_actions_response`.  Its deadline patterns (note: literal single
spaces, not `\s+`, and searched against the already-lowercased line with no
flags) are distinct from `_extract_deadline`'s.  For the groupless patterns
`tomorrow` and `next \w+` the code calls `match.group(1)`, which raises
`IndexError`. -/

def txtByPreRE : RE := .seq (.lit "by".data) (.lit " ".data)
def txtDuePreRE : RE := .seq (.lit "due".data) (.lit " ".data)
def txtDeadlinePreRE : RE := .seq (.lit "deadline".data) (.lit " ".data)

/-- `(\w+ \d{1,2})`. -/
def txtDlGroupRE : RE :=
  .seq (.many1 isWordPy) (.seq (.lit " ".data)
    (.alt (.seq (.one Char.isDigit) (.one Char.isDigit)) (.one Char.isDigit)))

/-- `next \w+`. -/
def txtNextRE : RE := .seq (.lit "next".data) (.seq (.lit " ".data) (.many1 isWordPy))

/-- The deadline loop of `_extract_actions_from_text` on the lowercased
line: first matching pattern wins; `match.group(1)` on the groupless
patterns raises `IndexError`. -/
def lineDeadline (ll : Str) : Except PyErr Str :=
  match reSearchG txtByPreRE txtDlGroupRE ll with
  | some g => .ok (titleL g)
  | none =>
  match reSearchG txtDuePreRE txtDlGroupRE ll with
  | some g => .ok (titleL g)
  | none =>
  match reSearchG txtDeadlinePreRE txtDlGroupRE ll with
  | some g => .ok (titleL g)
  | none =>
  match reSearchW tomorrowRE ll with
  | some _ => .error .indexError
  | none =>
  match reSearchW txtNextRE ll with
  | some _ => .error .indexError
  | none => .ok []

/-- One iteration of `_extract_actions_from_text`'s line loop. -/
def processLine (line : Str) : Except PyErr (Option Task) :=
  let l := stripL line
  if l.isEmpty || l.length < 10 then .ok none
  else if anyWord ["task".data, "action".data, "need to".data, "please".data,
                   "review".data, "prepare".data] (lowerL l) then do
    let pr :=
      if anyWord ["urgent".data, "asap".data, "immediately".data] (lowerL l)
      then "high".data
      else if anyWord ["when possible".data, "at your convenience".data]
             (lowerL l)
      then "low".data
      else "medium".data
    let dl ← lineDeadline (lowerL l)
    .ok (some ⟨l, pr, dl⟩)
  else .ok none

/-- `EmailProcessor._extract_actions_from_text`. -/
def extract_actions_from_text (text : Str) : Except PyErr (List Task) := do
  let acts ← (text.splitOn '\n').foldlM (fun acc line => do
      match ← processLine line with
      | some t => pure (acc ++ [t])
      | none => pure acc) ([] : List Task)
  pure (if acts.isEmpty then [⟨"Review this email".data, "medium".data, []⟩]
        else acts)

/-- `EmailProcessor._parse_actions_response`.  For the JSON-shaped response
of `_extract_actions` (it always contains braces, parses, and carries a
`tasks` key, and `json.loads` inverts `json.dumps`) the task list is
returned directly.  A plain-text response reaches the text fallback: the
responses the matcher actually produces on this path are its template
strings, for which the brace-guarded `json.loads` attempt either does not
fire or raises and is swallowed by the bare `except`. -/
def parse_actions_response : LLMResponse → Except PyErr (List Task)
  | .tasksJson ts => .ok ts
  | .text s =>
    if containsSub ['\x7b'] s && containsSub ['\x7d'] s then
      extract_actions_from_text s
    else
      extract_actions_from_text s

/-- The `EMAIL CONTENT` context block of `EmailProcessor.extract_actions`. -/
def emailContentCtx (body : Str) : Str :=
  "\n        EMAIL CONTENT:\n        ".data ++ body ++ "\n        ".data

/-- `EmailProcessor.extract_actions` (the public method used by the query
router): compose the prompt, run `generate_response`, parse the response. -/
def extract_actions (actionPrompt : Str) (e : EmailRec) :
    Except PyErr (List Task) := do
  let b ← getKey e.body
  let full := actionPrompt ++ "\n\n".data ++ emailContentCtx b
  parse_actions_response (smart_pattern_matcher full)

/-- The try-block of `EmailProcessor.process_single_email`.  The calls
`self._extract_actions(email)` and `self._summarize_email(email)` name
methods that do not exist on `EmailProcessor` (the class defines
`extract_actions` and `summarize_email`), so they raise `AttributeError`
at run time; the lines after each raise are unreachable. -/
def tryProcessSingle (catPrompt : Str) (e : EmailRec) : Except PyErr EmailRec := do
  let s ← getKey e.sender
  let sub ← getKey e.subject
  let b ← getKey e.body
  let cat := categorize_email catPrompt s sub b
  let e1 := { e with category := some cat }
  if cat = "To-Do".data then
    .error .attrError
  else
    let _e2 := { e1 with actions := some [] }
    .error .attrError

/-- The degraded state installed by the `except` handler of
`process_single_email` (it overwrites exactly the three fields it sets, on
the same dict the try-block may have partially mutated). -/
def degradedState (e : EmailRec) : EmailRec :=
  { e with category := some "Error".data, actions := some ([] : List Task),
           summary := some "Failed to process email".data }

/-- `EmailProcessor.process_single_email`. -/
def process_single_email (catPrompt : Str) (e : EmailRec) : EmailRec :=
  match tryProcessSingle catPrompt e with
  | .ok e' => e'
  | .error _ => degradedState e

/-- `EmailProcessor.process_batch_emails`. -/
def process_batch_emails (catPrompt : Str) (es : List EmailRec) : List EmailRec :=
  es.map (process_single_email catPrompt)

/-- The stats dictionary of `get_email_stats` (its six integer keys as
fields). -/
structure Stats where
  total : Nat
  important : Nat
  newsletter : Nat
  spam : Nat
  todo : Nat
  unprocessed : Nat
deriving DecidableEq, Repr

/-- `if category in stats: stats[category] += 1 else: stats['unprocessed'] += 1`. -/
def bumpCategory (s : Stats) (cat : Str) : Stats :=
  if cat = "total".data then { s with total := s.total + 1 }
  else if cat = "important".data then { s with important := s.important + 1 }
  else if cat = "newsletter".data then { s with newsletter := s.newsletter + 1 }
  else if cat = "spam".data then { s with spam := s.spam + 1 }
  else if cat = "todo".data then { s with todo := s.todo + 1 }
  else if cat = "unprocessed".data then { s with unprocessed := s.unprocessed + 1 }
  else { s with unprocessed := s.unprocessed + 1 }

/-- `EmailProcessor.get_email_stats`.  A `None`-valued or absent category
is modelled uniformly: `None` is not a key of `stats`, and an absent key
defaults to `'unprocessed'`, which is a key — both increment
`unprocessed`. -/
def get_email_stats (es : List EmailRec) : Stats :=
  es.foldl (fun st e => bumpCategory st (e.category.getD "unprocessed".data))
    { total := es.length, important := 0, newsletter := 0, spam := 0,
      todo := 0, unprocessed := 0 }

end EmailProcessor

/-! ### `MockDataLoader` (`src/utils/data_loader.py`) -/

namespace MockDataLoader

def mockEmail1 : EmailRec :=
  { id := 1,
    sender := some "project.manager@company.com".data,
    subject := some "Weekly Project Update - Urgent Review Needed".data,
    body := some "Hi team, we need to review the Q4 deliverables by tomorrow. Please prepare your status reports and be ready to discuss blockers. The meeting is scheduled for 10 AM tomorrow.".data,
    timestamp := "2024-01-15 09:30:00".data,
    read := false, category := none }

def mockEmail2 : EmailRec :=
  { id := 2,
    sender := some "newsletter@technews.com".data,
    subject := some "Weekly Tech Digest: AI Innovations".data,
    body := some "This week in AI: New breakthroughs in language models, industry updates, and more. Read about the latest developments in machine learning and artificial intelligence.".data,
    timestamp := "2024-01-15 08:15:00".data,
    read := true, category := none }

def mockEmail3 : EmailRec :=
  { id := 3,
    sender := some "hr@company.com".data,
    subject := some "Benefits Enrollment Reminder".data,
    body := some "Reminder: Open enrollment for health benefits ends this Friday. Please complete your selections in the portal.".data,
    timestamp := "2024-01-14 14:20:00".data,
    read := false, category := none }

def mockEmail4 : EmailRec :=
  { id := 4,
    sender := some "meeting.request@partner.com".data,
    subject := some "Meeting Request: Project Collaboration".data,
    body := some "Would you be available for a 30-minute call next Tuesday to discuss potential collaboration? Please let me know what time works best for you.".data,
    timestamp := "2024-01-14 11:45:00".data,
    read := false, category := none }

def mockEmail5 : EmailRec :=
  { id := 5,
    sender := some "noreply@system.com".data,
    subject := some "Your weekly system report".data,
    body := some "System generated report for the week. No action needed.".data,
    timestamp := "2024-01-14 10:00:00".data,
    read := true, category := none }

def mock_emails : List EmailRec :=
  [mockEmail1, mockEmail2, mockEmail3, mockEmail4, mockEmail5]

/-- `MockDataLoader.get_email_by_id`: linear scan, first id match, `None`
when absent. -/
def get_email_by_id (email_id : Int) : Option EmailRec :=
  mock_emails.find? (fun e => e.id == email_id)

end MockDataLoader

/-! ### The query router's task/action branch
(`process_action_query` in `src/pages/_Email_Agent.py`) -/

/-- Result of `process_action_query`: the (possibly updated) email, the
actions used to build the response, and the number of calls made to
`processor.extract_actions` (instrumentation for the memoization claim;
the rendered response string is presentation and is omitted). -/
structure ActionQueryResult where
  email : EmailRec
  actions : List Task
  extractorCalls : Nat
deriving DecidableEq, Repr

/-- `process_action_query`: `if email.get('actions'):` — the cache hit
requires a present *and nonempty* (truthy) list; otherwise
`processor.extract_actions` runs (with the session's action-extraction
prompt, here at its default) and the result is written back. -/
def process_action_query (e : EmailRec) : Except PyErr ActionQueryResult :=
  match e.actions with
  | some l =>
    if !l.isEmpty then .ok ⟨e, l, 0⟩
    else do
      let a ← EmailProcessor.extract_actions
        PromptManager.defaultActionExtractionPrompt e
      .ok ⟨{ e with actions := some a }, a, 1⟩
  | none => do
      let a ← EmailProcessor.extract_actions
        PromptManager.defaultActionExtractionPrompt e
      .ok ⟨{ e with actions := some a }, a, 1⟩

/-! ### Concrete claim inputs -/

/-- A collection with one email of category "Important", the concrete input
on which `get_email_stats` miscounts. -/
def c6Email : EmailRec := { category := some "Important".data }

/-- An email that *carries* an actions field whose value is the empty list
(exactly the state `process_single_email` leaves every email in). -/
def c5Email : EmailRec :=
  { body := some "Budget numbers attached".data, actions := some [] }

/-- A well-formed four-key prompt mapping: exactly the four canonical keys,
in the file's order. -/
abbrev wellFormedPromptSet (P : PromptManager.PromptSet) : Prop :=
  P.map Prod.fst =
    ["categorization".data, "action_extraction".data, "summarization".data,
     "auto_reply".data]

/-! ### Helper lemmas -/

lemma infix_append_left {w a : Str} (b : Str) (h : w <:+: a) : w <:+: a ++ b := by
  rcases h with ⟨u, v, rfl⟩
  exact ⟨u, v ++ b, by simp⟩

lemma infix_append_right {w b : Str} (a : Str) (h : w <:+: b) : w <:+: a ++ b := by
  rcases h with ⟨u, v, rfl⟩
  exact ⟨a ++ u, v, by simp⟩

lemma lowerL_append (a b : Str) : lowerL (a ++ b) = lowerL a ++ lowerL b := by
  simp [lowerL]

lemma containsSub_of_infix {w t : Str} (h : w <:+: t) : containsSub w t = true := by
  simpa [containsSub] using h

lemma anyWord_of_mem {w : Str} {ws : List Str} {t : Str} (hw : w ∈ ws)
    (h : w <:+: t) : anyWord ws t = true :=
  List.any_eq_true.2 ⟨w, hw, containsSub_of_infix h⟩

/-- A successful case-insensitive literal match means the lowered keyword
is a prefix of the lowered input. -/
lemma litMatchCI_isSome_imp {kw cs : Str} (h : (litMatchCI kw cs).isSome) :
    lowerL kw <+: lowerL cs := by
  induction kw generalizing cs with
  | nil => exact List.nil_prefix
  | cons k ks ih =>
    cases cs with
    | nil => simp [litMatchCI] at h
    | cons c cs' =>
      by_cases hk : k.toLower = c.toLower
      · have := ih (by simpa [litMatchCI, hk] using h)
        simpa [lowerL, hk] using this
      · simp [litMatchCI, hk] at h

/-! ### Claims C1 to C3 -/

/-- C1: any email whose subject or body contains the substring "urgent"
(case-insensitively) is categorized "Important" by the Pattern Classifier
(`FreeLLMService._categorize_email`), regardless of which other lexicons or
sender markers also match: the urgency lexicon is tested first. -/
theorem C1_urgent_always_important (sender subject body : Str)
    (h : "urgent".data <:+: lowerL subject ∨ "urgent".data <:+: lowerL body) :
    FreeLLMService.categorize_email sender subject body = "Important".data := by
  have hin : "urgent".data <:+: lowerL (subject ++ ' ' :: body) := by
    have hsplit : subject ++ ' ' :: body = subject ++ ([' '] ++ body) := by simp
    rw [hsplit, lowerL_append, lowerL_append]
    cases h with
    | inl h => exact infix_append_left _ h
    | inr h => exact infix_append_right _ (infix_append_right _ h)
  have hany : anyWord FreeLLMService.urgent_words (lowerL (subject ++ ' ' :: body)) = true :=
    anyWord_of_mem (by simp [FreeLLMService.urgent_words]) hin
  simp only [FreeLLMService.categorize_email, hany, if_true]

/-- Witness for C1 at a concrete email: the urgency word sits in the body
while the action lexicon ("please") and a newsletter sender marker also
match. -/
theorem C1_urgent_always_important_witness :
    ("urgent".data <:+: lowerL "please reply Urgently".data) ∧
      FreeLLMService.categorize_email "newsletter@technews.com".data
        "hello".data "please reply Urgently".data = "Important".data :=
  ⟨by decide,
   C1_urgent_always_important "newsletter@technews.com".data "hello".data
     "please reply Urgently".data (Or.inr (by decide))⟩

/-- C2: the Action Extractor (`FreeLLMService._extract_actions`) returns at
most 3 tasks, and when the three sweeps produce anything at all the result
is an order-preserving truncation (a prefix) of the concatenation
please-sweep ++ need-sweep ++ bullet-sweep. -/
theorem C2_extractor_cap_and_order (text : Str) :
    (FreeLLMService.extract_actions text).length ≤ 3 ∧
      (FreeLLMService.pleaseTasks text ++ FreeLLMService.needTasks text ++
          FreeLLMService.bulletTasks text ≠ [] →
        FreeLLMService.extract_actions text <+:
          FreeLLMService.pleaseTasks text ++ FreeLLMService.needTasks text ++
            FreeLLMService.bulletTasks text) := by
  have heq : FreeLLMService.extract_actions text =
      (if (FreeLLMService.pleaseTasks text ++ FreeLLMService.needTasks text ++
            FreeLLMService.bulletTasks text).isEmpty
       then [FreeLLMService.fallbackTask]
       else FreeLLMService.pleaseTasks text ++ FreeLLMService.needTasks text ++
            FreeLLMService.bulletTasks text).take 3 := rfl
  constructor
  · rw [heq]
    exact List.length_take_le 3 _
  · intro hne
    have hempty : (FreeLLMService.pleaseTasks text ++ FreeLLMService.needTasks text ++
        FreeLLMService.bulletTasks text).isEmpty = false := by
      simpa [List.isEmpty_iff] using hne
    rw [heq, hempty]
    simp only [Bool.false_eq_true, if_false]
    exact List.take_prefix 3 _

/-- Witness for C2 at a concrete body producing four sweep matches (one
"please" clause, one "must" clause, two bulleted lines): the sweeps are
nonempty and the extractor's output is a prefix of their concatenation
(so in particular it is truncated to 3). -/
theorem C2_extractor_cap_and_order_witness :
    (FreeLLMService.pleaseTasks "Please call me. We must hurry. - pack bags. - lock up.".data ++
        FreeLLMService.needTasks "Please call me. We must hurry. - pack bags. - lock up.".data ++
        FreeLLMService.bulletTasks "Please call me. We must hurry. - pack bags. - lock up.".data ≠ []) ∧
      FreeLLMService.extract_actions
          "Please call me. We must hurry. - pack bags. - lock up.".data <+:
        FreeLLMService.pleaseTasks "Please call me. We must hurry. - pack bags. - lock up.".data ++
          FreeLLMService.needTasks "Please call me. We must hurry. - pack bags. - lock up.".data ++
          FreeLLMService.bulletTasks "Please call me. We must hurry. - pack bags. - lock up.".data :=
  ⟨by decide,
   (C2_extractor_cap_and_order
     "Please call me. We must hurry. - pack bags. - lock up.".data).2 (by decide)⟩

/-- C3: when all three sweeps of the Action Extractor produce no match, the
result is exactly the single fallback task, with priority "medium" and
empty deadline. -/
theorem C3_fallback_task (text : Str)
    (h1 : findallG FreeLLMService.pleasePreRE FreeLLMService.clauseGroupRE text = [])
    (h2 : findallG FreeLLMService.needPreRE FreeLLMService.clauseGroupRE text = [])
    (h3 : findallG FreeLLMService.bulletPreRE FreeLLMService.bulletGroupRE text = []) :
    FreeLLMService.extract_actions text =
      [{ task := "Review this email for important information".data,
         priority := "medium".data, deadline := [] }] := by
  have hp : FreeLLMService.pleaseTasks text = [] := by
    simp [FreeLLMService.pleaseTasks, h1]
  have hn : FreeLLMService.needTasks text = [] := by
    simp [FreeLLMService.needTasks, h2]
  have hb : FreeLLMService.bulletTasks text = [] := by
    simp [FreeLLMService.bulletTasks, h3]
  simp [FreeLLMService.extract_actions, hp, hn, hb, FreeLLMService.fallbackTask]

/-- Witness for C3 at a concrete body with no sweep matches. -/
theorem C3_fallback_task_witness :
    (findallG FreeLLMService.pleasePreRE FreeLLMService.clauseGroupRE
        "Attached is the weekly summary".data = []) ∧
      FreeLLMService.extract_actions "Attached is the weekly summary".data =
        [{ task := "Review this email for important information".data,
           priority := "medium".data, deadline := [] }] :=
  ⟨by decide,
   C3_fallback_task "Attached is the weekly summary".data
     (by decide) (by decide) (by decide)⟩

/-! ### Claim C6 -/

/-- The `important` counter moves only on the literal key `"important"`. -/
lemma bumpCategory_important (st : EmailProcessor.Stats) (cat : Str) :
    (EmailProcessor.bumpCategory st cat).important =
      st.important + (if cat = "important".data then 1 else 0) := by
  unfold EmailProcessor.bumpCategory
  by_cases hc : cat = "important".data
  · subst hc
    rw [if_neg (by decide), if_pos rfl, if_pos rfl]
  · rw [if_neg hc]
    split_ifs <;> simp_all

lemma foldl_bump_important (es : List EmailRec) :
    ∀ init : EmailProcessor.Stats,
      (es.foldl (fun st e =>
          EmailProcessor.bumpCategory st (e.category.getD "unprocessed".data))
        init).important =
      init.important +
        es.countP (fun e => e.category.getD "unprocessed".data == "important".data) := by
  induction es with
  | nil => intro init; simp
  | cons e es ih =>
    intro init
    rw [List.foldl_cons, ih, List.countP_cons, bumpCategory_important]
    by_cases hc : e.category.getD "unprocessed".data = "important".data
    all_goals simp [hc]
    all_goals omega

/-- C6: `get_email_stats` does *not* report per-category counts for the
labels the processor assigns.  Its keys are lowercase (`'important'`,
`'todo'`, ...), while categories are `"Important"` / `"To-Do"` / ...; the
membership test `if category in stats` therefore fails and every such email
is counted as `unprocessed`.  Formally: the `important` field counts emails
whose category is literally `"important"` (first conjunct), and on a
collection containing one `"Important"` email the reported count is 0 while
the claim requires 1 (remaining conjuncts). -/
theorem C6_stats_miscount :
    (∀ es : List EmailRec,
        (EmailProcessor.get_email_stats es).important =
          es.countP (fun e =>
            e.category.getD "unprocessed".data == "important".data)) ∧
      EmailProcessor.get_email_stats [c6Email] =
        { total := 1, important := 0, newsletter := 0, spam := 0, todo := 0,
          unprocessed := 1 } ∧
      ([c6Email].countP (fun e => e.category == some "Important".data) = 1) ∧
      (EmailProcessor.get_email_stats [c6Email]).important ≠
        [c6Email].countP (fun e => e.category == some "Important".data) := by
  refine ⟨fun es => ?_, by decide, by decide, by decide⟩
  have h := foldl_bump_important es
    { total := es.length, important := 0, newsletter := 0, spam := 0,
      todo := 0, unprocessed := 0 }
  simpa [EmailProcessor.get_email_stats] using h

/-! ### Claim C7 -/

/-- C7: whenever the try-block of `process_single_email` raises, the email
is returned in the degraded state (category `"Error"`, empty actions, the
fixed failure summary), and batch processing maps over all emails
independently, so the output has the same length as the input. -/
theorem C7_degraded_state_and_batch (catPrompt : Str) (e : EmailRec)
    (err : PyErr) (es : List EmailRec)
    (h : EmailProcessor.tryProcessSingle catPrompt e = .error err) :
    EmailProcessor.process_single_email catPrompt e =
        EmailProcessor.degradedState e ∧
      (EmailProcessor.degradedState e).category = some "Error".data ∧
      (EmailProcessor.degradedState e).actions = some [] ∧
      (EmailProcessor.degradedState e).summary =
        some "Failed to process email".data ∧
      EmailProcessor.process_batch_emails catPrompt es =
        es.map (EmailProcessor.process_single_email catPrompt) ∧
      (EmailProcessor.process_batch_emails catPrompt es).length = es.length := by
  refine ⟨?_, rfl, rfl, rfl, rfl, ?_⟩
  · unfold EmailProcessor.process_single_email
    rw [h]
  · unfold EmailProcessor.process_batch_emails
    exact List.length_map es _

/-- Witness for C7: the fixture email 5 raises (`AttributeError` from the
call to the nonexistent `self._summarize_email`) and is returned degraded;
the batch over the whole fixture keeps its length. -/
theorem C7_degraded_state_and_batch_witness :
    EmailProcessor.tryProcessSingle PromptManager.defaultCategorizationPrompt
        MockDataLoader.mockEmail5 = .error .attrError ∧
      EmailProcessor.process_single_email PromptManager.defaultCategorizationPrompt
          MockDataLoader.mockEmail5 =
        EmailProcessor.degradedState MockDataLoader.mockEmail5 ∧
      (EmailProcessor.process_batch_emails PromptManager.defaultCategorizationPrompt
          MockDataLoader.mock_emails).length = MockDataLoader.mock_emails.length := by
  have h : EmailProcessor.tryProcessSingle PromptManager.defaultCategorizationPrompt
      MockDataLoader.mockEmail5 = .error .attrError := by decide
  have hc := C7_degraded_state_and_batch PromptManager.defaultCategorizationPrompt
    MockDataLoader.mockEmail5 .attrError MockDataLoader.mock_emails h
  exact ⟨h, hc.1, hc.2.2.2.2.2⟩

/-! ### Claim C9 -/

lemma ok_bind {ε α β : Type} (a : α) (f : α → Except ε β) :
    (Except.ok a : Except ε α) >>= f = f a := rfl

lemma error_bind {ε α β : Type} (e : ε) (f : α → Except ε β) :
    (Except.error e : Except ε α) >>= f = Except.error e := rfl

/-- Every run of the try-block of `process_single_email` raises: a missing
field raises `KeyError`, and otherwise the call to the undefined attribute
`self._extract_actions` (To-Do branch) or `self._summarize_email` (other
branch) raises `AttributeError`. -/
lemma tryProcessSingle_always_errors (catPrompt : Str) (e : EmailRec) :
    ∃ err, EmailProcessor.tryProcessSingle catPrompt e = .error err := by
  unfold EmailProcessor.tryProcessSingle
  cases hs : e.sender with
  | none => exact ⟨.keyError, by simp only [getKey, error_bind]⟩
  | some s =>
  cases hsub : e.subject with
  | none => exact ⟨.keyError, by simp only [getKey, ok_bind, error_bind]⟩
  | some sub =>
  cases hb : e.body with
  | none => exact ⟨.keyError, by simp only [getKey, ok_bind, error_bind]⟩
  | some b =>
  refine ⟨.attrError, ?_⟩
  simp only [getKey, ok_bind]
  split <;> rfl

/-- C9: the claim describes the intended non-error path of
`process_single_email` (extraction gated on the To-Do category, empty
actions otherwise) — but that path is unreachable: `self._extract_actions`
and `self._summarize_email` do not exist on `EmailProcessor`, so the
try-block raises on every email (first conjunct).  Concretely, fixture
email 2 is classified "Newsletter" in flight (second conjunct) yet is
returned with category "Error", not "Newsletter" with empty actions
(remaining conjuncts). -/
theorem C9_non_error_path_unreachable :
    (∀ (catPrompt : Str) (e : EmailRec),
        ∃ err, EmailProcessor.tryProcessSingle catPrompt e = .error err) ∧
      EmailProcessor.categorize_email PromptManager.defaultCategorizationPrompt
          (MockDataLoader.mockEmail2.sender.getD [])
          (MockDataLoader.mockEmail2.subject.getD [])
          (MockDataLoader.mockEmail2.body.getD []) = "Newsletter".data ∧
      EmailProcessor.process_single_email PromptManager.defaultCategorizationPrompt
          MockDataLoader.mockEmail2 =
        EmailProcessor.degradedState MockDataLoader.mockEmail2 ∧
      (EmailProcessor.process_single_email PromptManager.defaultCategorizationPrompt
          MockDataLoader.mockEmail2).category = some "Error".data :=
  ⟨tryProcessSingle_always_errors, by decide, by decide, by decide⟩

/-! ### Claim C10 -/

/-- `find?` returns the first satisfying element: the list splits at the
returned element and everything before it fails the predicate. -/
lemma find?_first {α : Type} (p : α → Bool) :
    ∀ (l : List α) (a : α), l.find? p = some a →
      ∃ l₁ l₂, l = l₁ ++ a :: l₂ ∧ ∀ x ∈ l₁, ¬ p x := by
  intro l
  induction l with
  | nil => intro a h; simp [List.find?] at h
  | cons x xs ih =>
    intro a h
    by_cases hx : p x
    · refine ⟨[], xs, ?_, by simp⟩
      rw [List.find?_cons_of_pos _ hx] at h
      cases h
      rfl
    · rw [List.find?_cons_of_neg _ (by simpa using hx)] at h
      obtain ⟨l₁, l₂, rfl, hall⟩ := ih a h
      exact ⟨x :: l₁, l₂, rfl, by
        intro y hy
        rcases List.mem_cons.1 hy with rfl | hy
        · exact hx
        · exact hall y hy⟩

/-- C10: `get_email_by_id` is total: for any integer id it returns the
first fixture email with that id when one exists, and `None` (no exception)
otherwise. -/
theorem C10_get_email_by_id_total (i : Int) :
    (∀ e, MockDataLoader.get_email_by_id i = some e → e.id = i) ∧
      ((∃ e ∈ MockDataLoader.mock_emails, e.id = i) →
        ∃ e, MockDataLoader.get_email_by_id i = some e) ∧
      ((∀ e ∈ MockDataLoader.mock_emails, e.id ≠ i) →
        MockDataLoader.get_email_by_id i = none) ∧
      (∀ e, MockDataLoader.get_email_by_id i = some e →
        ∃ l₁ l₂, MockDataLoader.mock_emails = l₁ ++ e :: l₂ ∧
          ∀ x ∈ l₁, x.id ≠ i) := by
  refine ⟨?_, ?_, ?_, ?_⟩
  · intro e h
    have := List.find?_some h
    simpa using this
  · intro ⟨e, he, hid⟩
    have : (MockDataLoader.mock_emails.find? (fun e => e.id == i)).isSome :=
      List.find?_isSome.2 ⟨e, he, by simpa using hid⟩
    exact Option.isSome_iff_exists.1 this
  · intro hall
    exact List.find?_eq_none.2 (fun x hx => by simpa using hall x hx)
  · intro e h
    obtain ⟨l₁, l₂, hsplit, hfail⟩ := find?_first _ _ _ h
    exact ⟨l₁, l₂, hsplit, fun x hx => by simpa using hfail x hx⟩

/-- Witness for C10: id 3 is present and found; id 99 is absent and yields
`none` rather than an error. -/
theorem C10_get_email_by_id_total_witness :
    (∃ e ∈ MockDataLoader.mock_emails, e.id = (3 : Int)) ∧
      (∃ e, MockDataLoader.get_email_by_id 3 = some e) ∧
      MockDataLoader.get_email_by_id 99 = none :=
  ⟨⟨MockDataLoader.mockEmail3, by decide, rfl⟩,
   (C10_get_email_by_id_total 3).2.1 ⟨MockDataLoader.mockEmail3, by decide, rfl⟩,
   (C10_get_email_by_id_total 99).2.2.1 (by decide)⟩

/-! ### Claim C8 -/

/-- C8: configuration round-trip — saving a well-formed four-key mapping
and loading returns the same mapping (the model's file level I/O always
succeeds, matching the claim's assumption). -/
theorem C8_save_load_roundtrip (P : PromptManager.PromptSet)
    (s : PromptManager.StoreState) (_h : wellFormedPromptSet P) :
    (PromptManager.load_prompts (PromptManager.save_prompts P s)).1 = P := rfl

/-- Witness for C8 at the canonical default prompt set and an empty store. -/
theorem C8_save_load_roundtrip_witness :
    wellFormedPromptSet PromptManager.defaultPrompts ∧
      (PromptManager.load_prompts (PromptManager.save_prompts
        PromptManager.defaultPrompts { file := none, session := none })).1 =
        PromptManager.defaultPrompts :=
  ⟨by decide,
   C8_save_load_roundtrip PromptManager.defaultPrompts
     { file := none, session := none } (by decide)⟩

/-! ### Claim C5 -/

/-- The LLM-level extractor never returns an empty list (fallback task). -/
lemma llm_extract_actions_ne_nil (t : Str) :
    FreeLLMService.extract_actions t ≠ [] := by
  cases hL : FreeLLMService.pleaseTasks t ++ FreeLLMService.needTasks t ++
      FreeLLMService.bulletTasks t with
  | nil => simp [FreeLLMService.extract_actions, hL]
  | cons a l => simp [FreeLLMService.extract_actions, hL]

/-- The classifier returns one of exactly four labels. -/
lemma categorize_email_mem (sender subject body : Str) :
    FreeLLMService.categorize_email sender subject body = "Important".data ∨
      FreeLLMService.categorize_email sender subject body = "To-Do".data ∨
      FreeLLMService.categorize_email sender subject body = "Newsletter".data ∨
      FreeLLMService.categorize_email sender subject body = "Spam".data := by
  simp only [FreeLLMService.categorize_email]
  split_ifs <;> simp

/-- `_parse_actions_response` on a plain-text response always reaches the
plain-text extractor (the brace-guarded `json.loads` attempt on the
matcher's template strings raises and is swallowed). -/
lemma parse_text (s : Str) :
    EmailProcessor.parse_actions_response (.text s) =
      EmailProcessor.extract_actions_from_text s := by
  have h : EmailProcessor.parse_actions_response (.text s) =
      if containsSub ['\x7b'] s && containsSub ['\x7d'] s
      then EmailProcessor.extract_actions_from_text s
      else EmailProcessor.extract_actions_from_text s := rfl
  rw [h]
  split <;> rfl

/-- `_parse_actions_response` on the JSON response of `_extract_actions`:
the braces are present, the regex grabs the object, `json.loads` inverts
`json.dumps`, and the `tasks` entry is returned. -/
lemma parse_tasksJson (ts : List Task) :
    EmailProcessor.parse_actions_response (.tasksJson ts) = .ok ts := rfl

/-- Dispatch: a prompt containing "categorize" goes to the categorize
branch of `_smart_pattern_matcher`. -/
lemma smart_matcher_cat_branch (p : Str)
    (hc : containsSub "categorize".data (lowerL p) = true) :
    FreeLLMService.smart_pattern_matcher p =
      .text (FreeLLMService.categorize_email
        (FreeLLMService.extract_email_content p).sender
        (FreeLLMService.extract_email_content p).subject
        (FreeLLMService.extract_email_content p).body) := by
  simp only [FreeLLMService.smart_pattern_matcher, hc, if_true]

/-- Dispatch: a prompt without "categorize" but with "extract" and
"action" goes to the extraction branch. -/
lemma smart_matcher_extract_branch (p : Str)
    (hc : containsSub "categorize".data (lowerL p) = false)
    (he : containsSub "extract".data (lowerL p) = true)
    (ha : containsSub "action".data (lowerL p) = true) :
    FreeLLMService.smart_pattern_matcher p =
      .tasksJson (FreeLLMService.extract_actions
        (FreeLLMService.extract_email_content p).body) := by
  simp only [FreeLLMService.smart_pattern_matcher, hc, he, ha, Bool.and_self,
    if_true, Bool.false_eq_true, if_false]

/-- The four category labels are shorter than 10 characters, so the
plain-text extractor skips them and emits its fallback task. -/
lemma extract_from_text_category (c : Str)
    (h : c = "Important".data ∨ c = "To-Do".data ∨ c = "Newsletter".data ∨
      c = "Spam".data) :
    EmailProcessor.extract_actions_from_text c =
      .ok [⟨"Review this email".data, "medium".data, []⟩] := by
  rcases h with rfl | rfl | rfl | rfl <;> decide

/-- The action-extraction prompt routes the matcher to the categorize
branch (when the composed prompt happens to contain "categorize") or to the
extraction branch (the default prompt contains both "extract" and
"action"); in both cases the parsed result is a nonempty task list. -/
lemma processor_extract_ok_ne_nil (e : EmailRec) (a : List Task)
    (h : EmailProcessor.extract_actions
      PromptManager.defaultActionExtractionPrompt e = .ok a) : a ≠ [] := by
  unfold EmailProcessor.extract_actions at h
  cases hb : e.body with
  | none => rw [hb] at h; simp [getKey, error_bind] at h
  | some b =>
    rw [hb] at h
    simp only [getKey, ok_bind] at h
    by_cases hc : containsSub "categorize".data
        (lowerL (PromptManager.defaultActionExtractionPrompt ++ "\n\n".data ++
          EmailProcessor.emailContentCtx b)) = true
    · rw [smart_matcher_cat_branch _ hc, parse_text,
        extract_from_text_category _ (categorize_email_mem _ _ _)] at h
      injection h with h2
      rw [← h2]
      decide
    · have hc' : containsSub "categorize".data
          (lowerL (PromptManager.defaultActionExtractionPrompt ++ "\n\n".data ++
            EmailProcessor.emailContentCtx b)) = false := by
        simpa using hc
      have hext : containsSub "extract".data
          (lowerL (PromptManager.defaultActionExtractionPrompt ++ "\n\n".data ++
            EmailProcessor.emailContentCtx b)) = true := by
        rw [lowerL_append]
        exact containsSub_of_infix (infix_append_left _ (by decide))
      have hact : containsSub "action".data
          (lowerL (PromptManager.defaultActionExtractionPrompt ++ "\n\n".data ++
            EmailProcessor.emailContentCtx b)) = true := by
        rw [lowerL_append]
        exact containsSub_of_infix (infix_append_left _ (by decide))
      rw [smart_matcher_extract_branch _ hc' hext hact, parse_tasksJson] at h
      injection h with h2
      rw [← h2]
      exact llm_extract_actions_ne_nil _

/-- C5 counterexample: an email that carries an actions field with value
`[]` (as every email processed by `process_single_email` does).  The query
router's task branch nevertheless invokes the extractor (`extractorCalls =
1`) and returns its fresh result instead of the carried value — the
condition is `if email.get('actions')`, truthiness, not presence. -/
theorem C5_cached_field_counterexample :
    c5Email.actions = some ([] : List Task) ∧
      EmailAgent.process_action_query c5Email =
        .ok ⟨{ c5Email with actions := some [FreeLLMService.fallbackTask] },
             [FreeLLMService.fallbackTask], 1⟩ ∧
      (∀ r, EmailAgent.process_action_query c5Email = .ok r →
        r.extractorCalls ≠ 0 ∧ r.actions ≠ []) := by
  have h2 : EmailAgent.process_action_query c5Email =
      .ok ⟨{ c5Email with actions := some [FreeLLMService.fallbackTask] },
           [FreeLLMService.fallbackTask], 1⟩ := by decide
  refine ⟨rfl, h2, fun r hr => ?_⟩
  rw [h2] at hr
  cases hr
  exact ⟨by decide, by decide⟩

/-- C5 amended: the cache hit requires a *nonempty* actions list, not a
merely present field.  With a nonempty cached list the value is returned
and the extractor is not invoked; with the field absent or empty the
extractor runs once, its (always nonempty) result is stored, and a second
query is then served from the cache without invoking the extractor again —
so actions are computed at most once after the first computation. -/
theorem C5_memoization_amended :
    (∀ (e : EmailRec) (l : List Task), e.actions = some l → l ≠ [] →
        EmailAgent.process_action_query e = .ok ⟨e, l, 0⟩) ∧
      (∀ (e : EmailRec) (r : ActionQueryResult),
        (e.actions = none ∨ e.actions = some []) →
        EmailAgent.process_action_query e = .ok r →
          r.extractorCalls = 1 ∧ r.actions ≠ [] ∧
            r.email = { e with actions := some r.actions } ∧
            EmailAgent.process_action_query r.email =
              .ok ⟨r.email, r.actions, 0⟩) := by
  have hhit : ∀ (e : EmailRec) (l : List Task), e.actions = some l → l ≠ [] →
      EmailAgent.process_action_query e = .ok ⟨e, l, 0⟩ := by
    intro e l ha hl
    have hne : l.isEmpty = false := by simpa [List.isEmpty_iff] using hl
    simp [EmailAgent.process_action_query, ha, hne]
  refine ⟨hhit, fun e r hcache hok => ?_⟩
  have hmiss : ∀ (a : List Task),
      EmailProcessor.extract_actions
        PromptManager.defaultActionExtractionPrompt e = .ok a →
      r = ⟨{ e with actions := some a }, a, 1⟩ →
      r.extractorCalls = 1 ∧ r.actions ≠ [] ∧
        r.email = { e with actions := some r.actions } ∧
        EmailAgent.process_action_query r.email = .ok ⟨r.email, r.actions, 0⟩ := by
    intro a hx hr
    subst hr
    have hne := processor_extract_ok_ne_nil e a hx
    refine ⟨rfl, hne, rfl, ?_⟩
    exact hhit _ a rfl hne
  rcases hcache with ha | ha
  · rw [EmailAgent.process_action_query, ha] at hok
    cases hx : EmailProcessor.extract_actions
        PromptManager.defaultActionExtractionPrompt e with
    | error err => rw [hx, error_bind] at hok; cases hok
    | ok a =>
      rw [hx, ok_bind] at hok
      cases hok
      exact hmiss a hx rfl
  · rw [EmailAgent.process_action_query, ha] at hok
    simp only [List.isEmpty_nil, Bool.not_true, Bool.false_eq_true, if_false] at hok
    cases hx : EmailProcessor.extract_actions
        PromptManager.defaultActionExtractionPrompt e with
    | error err => rw [hx, error_bind] at hok; cases hok
    | ok a =>
      rw [hx, ok_bind] at hok
      cases hok
      exact hmiss a hx rfl

/-- Witness for C5's amended theorem: a cache hit on a nonempty stored list
returns the stored value with zero extractor invocations. -/
theorem C5_memoization_amended_witness :
    ({ actions := some [FreeLLMService.fallbackTask] } : EmailRec).actions =
        some [FreeLLMService.fallbackTask] ∧
      [FreeLLMService.fallbackTask] ≠ [] ∧
      EmailAgent.process_action_query
          { actions := some [FreeLLMService.fallbackTask] } =
        .ok ⟨{ actions := some [FreeLLMService.fallbackTask] },
             [FreeLLMService.fallbackTask], 0⟩ :=
  ⟨rfl, by decide,
   C5_memoization_amended.1 { actions := some [FreeLLMService.fallbackTask] }
     [FreeLLMService.fallbackTask] rfl (by decide)⟩

/-! ### Claim C4

The dispatch of `_smart_pattern_matcher` and the field extraction of
`_extract_email_content` read the composed prompt, which embeds the
user-edited prompt template — so the prompt text *can* change matcher
output (counterexample below).  The amended claim restricts to templates
that contain the routing keyword "categorize" and contain none of the
field markers "from:", "subject:", "body:" (case-insensitively); for such
templates categorization is template-independent.  The key lemmas: a
`re.search` for a pattern starting with a newline-free literal keyword
skips any leading region that does not contain the keyword (the region is
followed by `\n`, which the keyword cannot span), and the BODY search on
the fixed context block always succeeds, so the whole-prompt fallback for
the body never fires. -/

/-- A prefix of `lowerL P ++ '\n' :: tail` by a newline-free word not
occurring in `lowerL P` is impossible. -/
lemma not_pref_append_nl {kw P : Str} (rest : Str) (hnl : '\n' ∉ kw)
    (hni : ¬ kw <:+: lowerL P) : ¬ kw <+: lowerL (P ++ '\n' :: rest) := by
  intro hp
  rw [lowerL_append] at hp
  have hltail : lowerL ('\n' :: rest) = '\n' :: lowerL rest := rfl
  rw [hltail] at hp
  have hpa : lowerL P <+: lowerL P ++ '\n' :: lowerL rest := List.prefix_append _ _
  rcases le_or_lt kw.length (lowerL P).length with hle | hlt
  · exact hni (List.prefix_of_prefix_length_le hp hpa hle).isInfix
  · have hap : lowerL P <+: kw :=
      List.prefix_of_prefix_length_le hpa hp (le_of_lt hlt)
    obtain ⟨t, rfl⟩ := hap
    cases t with
    | nil => simp at hlt
    | cons c t' =>
      obtain ⟨u, hu⟩ := hp
      rw [List.append_assoc] at hu
      have h2 : (c :: t') ++ u = '\n' :: lowerL rest :=
        List.append_cancel_left hu
      have hc : c = '\n' := by
        have := congrArg List.head? h2
        simpa using this
      subst hc
      exact hnl (List.mem_append_right _ (List.mem_cons_self _ _))

/-- If the lowered keyword is not a prefix of the lowered input, a pattern
that starts with the keyword literal cannot match there. -/
lemma matchAtG_lit_none {kw : Str} (R g : RE) {cs : Str}
    (h : ¬ lowerL kw <+: lowerL cs) :
    matchAtG (.seq (.lit kw) R) g cs = none := by
  have hlit : litMatchCI kw cs = none := by
    cases hm : litMatchCI kw cs with
    | none => rfl
    | some r => exact absurd (litMatchCI_isSome_imp (by simp [hm])) h
  simp [matchAtG, reMatches, hlit, firstSome]

/-- Scanning skips a leading region free of the (lowercase, newline-free)
keyword when the region is followed by a newline. -/
lemma reSearchAuxG_skip {kw : Str} (R g : RE) (hnl : '\n' ∉ kw)
    (hlow : lowerL kw = kw) :
    ∀ (P : Str) (m : Nat) (rest : Str), ¬ kw <:+: lowerL P →
      reSearchAuxG (.seq (.lit kw) R) g (P.length + m) (P ++ '\n' :: rest) =
        reSearchAuxG (.seq (.lit kw) R) g m ('\n' :: rest) := by
  intro P
  induction P with
  | nil =>
    intro m rest _
    rw [List.length_nil, Nat.zero_add, List.nil_append]
  | cons p P' ih =>
    intro m rest hni
    have hstep : ¬ kw <+: lowerL ((p :: P') ++ '\n' :: rest) := by
      rw [← hlow] at hni ⊢
      exact not_pref_append_nl rest (by rw [hlow]; exact hnl) hni
    have hnone : matchAtG (.seq (.lit kw) R) g ((p :: P') ++ '\n' :: rest) = none :=
      matchAtG_lit_none R g (by rw [hlow]; exact hstep)
    have hfuel : (p :: P').length + m = (P'.length + m) + 1 := by
      simp [Nat.add_right_comm]
    rw [hfuel]
    rw [List.cons_append] at hnone
    simp only [reSearchAuxG, List.cons_append, hnone]
    exact ih m rest (fun hinf => hni (by
      rcases hinf with ⟨u, v, hv⟩
      exact ⟨p.toLower :: u, v, by simp [lowerL] at hv ⊢; exact hv⟩))

/-- `reSearchG` version of the skip lemma. -/
lemma reSearchG_skip {kw : Str} (R g : RE) (hnl : '\n' ∉ kw)
    (hlow : lowerL kw = kw) (P rest : Str) (hni : ¬ kw <:+: lowerL P) :
    reSearchG (.seq (.lit kw) R) g (P ++ '\n' :: rest) =
      reSearchG (.seq (.lit kw) R) g ('\n' :: rest) := by
  unfold reSearchG
  have hlen : (P ++ '\n' :: rest).length + 1 =
      P.length + (('\n' :: rest).length + 1) := by
    simp [Nat.add_assoc]
  rw [hlen]
  exact reSearchAuxG_skip R g hnl hlow P _ rest hni

/-- `firstSome` fails only when every element fails. -/
lemma firstSome_eq_none_iff {α β : Type} (l : List α) (f : α → Option β) :
    firstSome l f = none ↔ ∀ a ∈ l, f a = none := by
  induction l with
  | nil => simp [firstSome]
  | cons a l ih =>
    cases hf : f a with
    | some b => simp [firstSome, hf]
    | none => simp [firstSome, hf, ih]

/-- The scanner succeeds as soon as any suffix position matches. -/
lemma reSearchAuxG_isSome {pre g : RE} :
    ∀ (cs : Str) (n : Nat), cs.length < n →
      (∃ t, t <:+ cs ∧ (matchAtG pre g t).isSome) →
      (reSearchAuxG pre g n cs).isSome := by
  intro cs
  induction cs with
  | nil =>
    rintro n hn ⟨t, ht, hm⟩
    have ht' : t = [] := List.eq_nil_of_suffix_nil ht
    subst ht'
    cases n with
    | zero => omega
    | succ n' =>
      simp only [reSearchAuxG]
      cases hM : matchAtG pre g ([] : Str) with
      | some pr => simp
      | none => rw [hM] at hm; simp at hm
  | cons c cs' ih =>
    rintro n hn ⟨t, ht, hm⟩
    cases n with
    | zero => omega
    | succ n' =>
      simp only [reSearchAuxG]
      cases hM : matchAtG pre g (c :: cs') with
      | some pr => simp
      | none =>
        have ht' : t <:+ cs' := by
          rcases List.suffix_cons_iff.1 ht with rfl | h
          · rw [hM] at hm; simp at hm
          · exact h
        have := ih n' (by simpa using Nat.lt_of_succ_lt_succ hn) ⟨t, ht', hm⟩
        simpa using this

lemma takeWhile_const_true : ∀ l : Str, l.takeWhile (fun _ => true) = l := by
  intro l
  induction l with
  | nil => rfl
  | cons c cs ih => simp [List.takeWhile_cons, ih]

/-- The BODY pattern matches at the position of the literal "Body: " in the
context block: `\s*` can always yield enough to let `(.+)` consume at least
one character. -/
lemma body_match_some (X : Str) :
    (matchAtG FreeLLMService.bodyPreRE FreeLLMService.restGroupRE
      ("Body: ".data ++ X)).isSome := by
  cases hM : matchAtG FreeLLMService.bodyPreRE FreeLLMService.restGroupRE
      ("Body: ".data ++ X) with
  | some pr => rfl
  | none =>
    exfalso
    have hlit : litMatchCI "body:".data ("Body: ".data ++ X) = some (' ' :: X) := rfl
    unfold matchAtG at hM
    rw [firstSome_eq_none_iff] at hM
    have hc : (' ' :: X) ∈ reMatches FreeLLMService.bodyPreRE ("Body: ".data ++ X) := by
      show (' ' :: X) ∈
        (reMatches (.lit "body:".data) ("Body: ".data ++ X)).flatMap
          (reMatches (.many0 isSpacePy))
      have hl : reMatches (.lit "body:".data) ("Body: ".data ++ X) = [' ' :: X] := rfl
      rw [hl]
      simp only [List.flatMap_cons, List.flatMap_nil, List.append_nil]
      show (' ' :: X) ∈
        (List.range (((' ' :: X).takeWhile isSpacePy).length + 1)).map
          (fun i => (' ' :: X).drop ((((' ' :: X).takeWhile isSpacePy).length) - i))
      exact List.mem_map.2 ⟨((' ' :: X).takeWhile isSpacePy).length,
        List.mem_range.2 (Nat.lt_succ_self _), by simp⟩
    have hf := hM _ hc
    rw [Option.map_eq_none'] at hf
    have hne : reMatches FreeLLMService.restGroupRE (' ' :: X) ≠ [] := by
      show (List.range (((' ' :: X).takeWhile (fun _ => true)).length)).map
          (fun i => (' ' :: X).drop ((((' ' :: X).takeWhile (fun _ => true)).length) - i)) ≠ []
      rw [takeWhile_const_true]
      simp
    exact hne (List.head?_eq_none_iff.1 hf)

/-- The BODY search succeeds on the fixed categorization context block for
any email fields: the whole-prompt fallback of `_extract_email_content`
never fires there. -/
lemma body_search_ctx_isSome (s sub b : Str) :
    (reSearchG FreeLLMService.bodyPreRE FreeLLMService.restGroupRE
      ('\n' :: '\n' :: EmailProcessor.emailDetailsCtx s sub b)).isSome := by
  unfold reSearchG
  apply reSearchAuxG_isSome _ _ (Nat.lt_succ_self _)
  refine ⟨"Body: ".data ++ (b ++ "\n        ".data), ?_, body_match_some _⟩
  refine ⟨'\n' :: '\n' :: ("\n        EMAIL DETAILS:\n        From: ".data ++ s ++
    "\n        Subject: ".data ++ sub ++ "\n        ".data), ?_⟩
  have hC : ("\n        Body: ".data : Str) =
      "\n        ".data ++ "Body: ".data := rfl
  simp [EmailProcessor.emailDetailsCtx, hC]

/-- Field extraction ignores a leading prompt template that contains none
of the field markers (the BODY search always succeeds on the context block,
so the whole-prompt fallback never fires). -/
lemma extract_content_skip (P s sub b : Str)
    (hf : ¬ "from:".data <:+: lowerL P)
    (hsj : ¬ "subject:".data <:+: lowerL P)
    (hbk : ¬ "body:".data <:+: lowerL P) :
    FreeLLMService.extract_email_content
        (P ++ "\n\n".data ++ EmailProcessor.emailDetailsCtx s sub b) =
      FreeLLMService.extract_email_content
        ('\n' :: '\n' :: EmailProcessor.emailDetailsCtx s sub b) := by
  have hassoc : P ++ "\n\n".data ++ EmailProcessor.emailDetailsCtx s sub b =
      P ++ '\n' :: '\n' :: EmailProcessor.emailDetailsCtx s sub b := by
    rw [List.append_assoc]
    rfl
  rw [hassoc]
  have h1 : reSearchG FreeLLMService.fromPreRE FreeLLMService.lineGroupRE
      (P ++ '\n' :: '\n' :: EmailProcessor.emailDetailsCtx s sub b) =
      reSearchG FreeLLMService.fromPreRE FreeLLMService.lineGroupRE
        ('\n' :: '\n' :: EmailProcessor.emailDetailsCtx s sub b) :=
    reSearchG_skip _ _ (by decide) (by decide) P _ hf
  have h2 : reSearchG FreeLLMService.subjectPreRE FreeLLMService.lineGroupRE
      (P ++ '\n' :: '\n' :: EmailProcessor.emailDetailsCtx s sub b) =
      reSearchG FreeLLMService.subjectPreRE FreeLLMService.lineGroupRE
        ('\n' :: '\n' :: EmailProcessor.emailDetailsCtx s sub b) :=
    reSearchG_skip _ _ (by decide) (by decide) P _ hsj
  have h3 : reSearchG FreeLLMService.bodyPreRE FreeLLMService.restGroupRE
      (P ++ '\n' :: '\n' :: EmailProcessor.emailDetailsCtx s sub b) =
      reSearchG FreeLLMService.bodyPreRE FreeLLMService.restGroupRE
        ('\n' :: '\n' :: EmailProcessor.emailDetailsCtx s sub b) :=
    reSearchG_skip _ _ (by decide) (by decide) P _ hbk
  unfold FreeLLMService.extract_email_content
  rw [h1, h2, h3]
  cases hbs : reSearchG FreeLLMService.bodyPreRE FreeLLMService.restGroupRE
      ('\n' :: '\n' :: EmailProcessor.emailDetailsCtx s sub b) with
  | some g => rfl
  | none =>
    have := body_search_ctx_isSome s sub b
    rw [hbs] at this
    simp at this

/-- Under the amended conditions, categorization is a function of the email
fields alone. -/
lemma categorize_email_canonical (P s sub b : Str)
    (hcat : "categorize".data <:+: lowerL P)
    (hf : ¬ "from:".data <:+: lowerL P)
    (hsj : ¬ "subject:".data <:+: lowerL P)
    (hbk : ¬ "body:".data <:+: lowerL P) :
    EmailProcessor.categorize_email P s sub b =
      EmailProcessor.clean_category_response
        (FreeLLMService.categorize_email
          (FreeLLMService.extract_email_content
            ('\n' :: '\n' :: EmailProcessor.emailDetailsCtx s sub b)).sender
          (FreeLLMService.extract_email_content
            ('\n' :: '\n' :: EmailProcessor.emailDetailsCtx s sub b)).subject
          (FreeLLMService.extract_email_content
            ('\n' :: '\n' :: EmailProcessor.emailDetailsCtx s sub b)).body) := by
  simp only [EmailProcessor.categorize_email]
  have hc : containsSub "categorize".data
      (lowerL (P ++ "\n\n".data ++ EmailProcessor.emailDetailsCtx s sub b)) = true := by
    rw [List.append_assoc, lowerL_append]
    exact containsSub_of_infix (infix_append_left _ hcat)
  rw [smart_matcher_cat_branch _ hc]
  simp only [FreeLLMService.respToStr]
  rw [extract_content_skip P s sub b hf hsj hbk]

/-- C4 counterexample: the stored prompt text *does* influence matcher
output.  With the template "categorize" the pipeline classifies the email
("please review the notes") as To-Do; with the empty template the dispatch
keyword is missing, the matcher returns its generic acknowledgement, and
the cleaner's fallback yields Important. -/
theorem C4_prompt_dependence_counterexample :
    EmailProcessor.categorize_email "categorize".data "x".data "hi".data
        "please review the notes".data = "To-Do".data ∧
      EmailProcessor.categorize_email [] "x".data "hi".data
        "please review the notes".data = "Important".data ∧
      EmailProcessor.categorize_email "categorize".data "x".data "hi".data
          "please review the notes".data ≠
        EmailProcessor.categorize_email [] "x".data "hi".data
          "please review the notes".data := by
  refine ⟨by decide, by decide, by decide⟩

/-- C4 amended: restricted prompt independence.  For any two categorization
prompt templates that each contain the routing keyword "categorize" and
contain none of the field markers "from:" / "subject:" / "body:"
(case-insensitively), the categorization pipeline produces identical output
on every email. -/
theorem C4_prompt_independence_amended (P1 P2 sender subject body : Str)
    (hcat1 : "categorize".data <:+: lowerL P1)
    (hcat2 : "categorize".data <:+: lowerL P2)
    (hf1 : ¬ "from:".data <:+: lowerL P1)
    (hsj1 : ¬ "subject:".data <:+: lowerL P1)
    (hbk1 : ¬ "body:".data <:+: lowerL P1)
    (hf2 : ¬ "from:".data <:+: lowerL P2)
    (hsj2 : ¬ "subject:".data <:+: lowerL P2)
    (hbk2 : ¬ "body:".data <:+: lowerL P2) :
    EmailProcessor.categorize_email P1 sender subject body =
      EmailProcessor.categorize_email P2 sender subject body := by
  rw [categorize_email_canonical P1 sender subject body hcat1 hf1 hsj1 hbk1,
    categorize_email_canonical P2 sender subject body hcat2 hf2 hsj2 hbk2]

/-- Witness for C4's amended theorem at two concrete admissible templates
and a concrete email. -/
theorem C4_prompt_independence_amended_witness :
    ("categorize".data <:+: lowerL "Categorize the following email".data) ∧
      (¬ "from:".data <:+: lowerL "Categorize the following email".data) ∧
      EmailProcessor.categorize_email "categorize".data "a@b.com".data
          "Hello".data "please review the notes".data =
        EmailProcessor.categorize_email "Categorize the following email".data
          "a@b.com".data "Hello".data "please review the notes".data :=
  ⟨by decide, by decide,
   C4_prompt_independence_amended "categorize".data
     "Categorize the following email".data "a@b.com".data "Hello".data
     "please review the notes".data (by decide) (by decide) (by decide)
     (by decide) (by decide) (by decide) (by decide) (by decide)⟩

end EmailAgent



